import Mathlib

/-!
Verification development for the quantization engine in
`ppq/quantization/quantizer/base.py` (class `BaseQuantizer`).

The Python source is shallowly embedded below.  Graphs are association
lists of named operations (a Python `dict` preserves insertion order),
and the two mutable `dict` arguments of `quantize_operations`
(`operation_platforms`, `operation_quantization_configs`) are embedded
as association lists with last-write-wins lookup (`dict_set` prepends
an entry, `dict_get` returns the first match).  Python exceptions are
embedded by returning the error together with the graph as mutated at
the moment the exception is raised.
-/

namespace PPQ

/-- Modelled from the spec: `TargetPlatform` (from `ppq.core`, not under
`src/`) is an enumeration of hardware/execution targets that
"distinguishes `unspecified`, `quantized` platforms, and `non-quantized`
(fp32 passthrough) platforms".  We model one representative enumeration
with two quantized platforms and one non-quantized platform. -/
inductive TargetPlatform where
  | UNSPECIFIED
  | TRT_INT8
  | PPL_CUDA_INT8
  | FP32
  deriving DecidableEq, Repr

/-- Modelled from the spec: `TargetPlatform.is_quantized_platform`
(from `ppq.core`, not under `src/`) decides whether a platform is one
of the "quantized" platforms. -/
def TargetPlatform.is_quantized_platform : TargetPlatform → Bool
  | .TRT_INT8 => true
  | .PPL_CUDA_INT8 => true
  | _ => false

/-- Modelled from the spec: the `QuantizationStates` lifecycle enumeration
(from `ppq.core`, not under `src/`): "at minimum `{uninitialized,
initialized-pending-calibration, calibrated/activated,
baked-into-parameters, passive, fp32-passthrough/deactivated}`". -/
inductive QuantizationStates where
  | INITIAL
  | PENDING_CALIBRATION
  | ACTIVATED
  | BAKED
  | PASSIVE
  | DEACTIVATED
  deriving DecidableEq, Repr

/-- Modelled from the spec: `QuantizationStates.can_export` (from
`ppq.core`, not under `src/`): "a config is exportable only once it
reaches a terminal calibrated/baked/passive/deactivated state". -/
def QuantizationStates.can_export : QuantizationStates → Bool
  | .ACTIVATED => true
  | .BAKED => true
  | .PASSIVE => true
  | .DEACTIVATED => true
  | _ => false

/-- Modelled from the spec: `QuantizationPolicy` (from `ppq.core`, not
under `src/`); an opaque policy tag (symmetric/asymmetric,
per-tensor/per-channel, ...).  Only carried around, never inspected. -/
inductive QuantizationPolicy where
  | PER_TENSOR_SYMMETRIC
  | PER_TENSOR_ASYMMETRIC
  | PER_CHANNEL_SYMMETRIC
  deriving DecidableEq, Repr

/-- Modelled from the spec: `RoundingPolicy` (from `ppq.core`, not under
`src/`); an opaque rounding tag.  Only carried around, never inspected. -/
inductive RoundingPolicy where
  | ROUND_HALF_EVEN
  | ROUND_HALF_UP
  deriving DecidableEq, Repr

/-- `TensorQuantizationConfig` (from `ppq.core`, fields as used in
`base.py` lines 157-162 and as listed in the spec data model):
policy, rounding policy, bit width, quant range, nullable scale and
offset, observer algorithm name, and a lifecycle state. -/
structure TensorQuantizationConfig where
  policy : QuantizationPolicy
  rounding : RoundingPolicy
  num_of_bits : Int
  scale : Option Int
  offset : Option Int
  quant_min : Int
  quant_max : Int
  observer_algorithm : String
  state : QuantizationStates
  deriving DecidableEq, Repr

/-- `OperationQuantizationConfig` (from `ppq.core`): an input sublist
and an output sublist of tensor configs (accessed in `base.py` as
`config.input_quantization_config` / `config.output_quantization_config`,
lines 72-73). -/
structure OperationQuantizationConfig where
  input_quantization_config : List TensorQuantizationConfig
  output_quantization_config : List TensorQuantizationConfig
  deriving DecidableEq, Repr

/-- `OperationMeta` (from `ppq.core`, fields as used in `base.py`
line 156): traced input/output arity. -/
structure OperationMeta where
  num_of_input : Nat
  num_of_output : Nat
  deriving DecidableEq, Repr

/-- An operation record: type tag, platform assignment and optional
traced metadata (spec data model: "identified by a unique name and a
type tag; holds a platform assignment (initially unspecified) and
optional traced metadata"). -/
structure Operation where
  op_type : String
  platform : TargetPlatform
  meta_data : Option OperationMeta
  deriving DecidableEq, Repr

/-- A graph node is either a plain operation or a `QuantableOperation`
(an operation plus exactly one `OperationQuantizationConfig`). -/
inductive Op where
  | plain (o : Operation)
  | quantable (o : Operation) (config : OperationQuantizationConfig)
  deriving DecidableEq, Repr

def Op.operation : Op → Operation
  | .plain o => o
  | .quantable o _ => o

def Op.platform (op : Op) : TargetPlatform := op.operation.platform

def Op.op_type (op : Op) : String := op.operation.op_type

def Op.meta_data (op : Op) : Option OperationMeta := op.operation.meta_data

/-- `isinstance(operation, QuantableOperation)`. -/
def Op.is_quantable : Op → Bool
  | .plain _ => false
  | .quantable _ _ => true

/-- Writing `operation.platform = ...` in place. -/
def Op.set_platform : Op → TargetPlatform → Op
  | .plain o, p => .plain { o with platform := p }
  | .quantable o c, p => .quantable { o with platform := p } c

/-- `self._graph.operations`: an insertion-ordered dict name → operation. -/
abbrev Graph := List (String × Op)

/-- First-match lookup in an association list (a Python dict read). -/
def dict_get {α : Type} (d : List (String × α)) (key : String) : Option α :=
  match d with
  | [] => none
  | (k, v) :: rest => if k = key then some v else dict_get rest key

/-- Python dict write `d[key] = value`, embedded as a prepend
(last-write-wins together with the first-match `dict_get`). -/
def dict_set {α : Type} (d : List (String × α)) (key : String) (value : α) :
    List (String × α) :=
  (key, value) :: d

@[simp] theorem dict_get_set_self {α : Type} (d : List (String × α)) (k : String) (v : α) :
    dict_get (dict_set d k v) k = some v := by
  simp [dict_get, dict_set]

theorem dict_get_set_ne {α : Type} (d : List (String × α)) (k key : String) (v : α)
    (h : k ≠ key) : dict_get (dict_set d k v) key = dict_get d key := by
  simp [dict_get, dict_set, h]

/-! ## The settings tree (`ppq.api.setting`, not under `src/`)

Modelled from the spec's settings table (§6) together with the field
accesses in `create_optim_pipeline_from_setting`: each boolean toggle
gates a nested parameter object. -/

/-- Modelled from the spec: equalization parameters. -/
structure EqualizationSetting where
  opt_level : Int
  iterations : Int
  value_threshold : Int
  including_bias : Bool
  including_act : Bool
  bias_multiplier : Int
  act_multiplier : Int
  deriving DecidableEq, Repr

/-- Modelled from the spec: SSD-style equalization parameters. -/
structure SSDSetting where
  opt_level : Int
  channel_ratio : Int
  loss_threshold : Int
  layer_norm : Bool
  iteration : Int
  deriving DecidableEq, Repr

/-- Modelled from the spec: fusion sub-flags. -/
structure FusionSetting where
  refine_quantization : Bool
  remove_useless_quantization : Bool
  fuse_concat : Bool
  fuse_activation : Bool
  fuse_passive_op : Bool
  fuse_conv_add : Bool
  deriving DecidableEq, Repr

/-- Modelled from the spec: parameter-quantization parameters. -/
structure ParameterSetting where
  calib_algorithm : String
  baking_parameter : Bool
  quantize_passive_parameter : Bool
  deriving DecidableEq, Repr

/-- Modelled from the spec: activation-quantization parameters. -/
structure ActivationSetting where
  calib_algorithm : String
  per_layer_calibration : Bool
  inplace_act_quantization : Bool
  deriving DecidableEq, Repr

/-- Modelled from the spec: advanced-optimization parameters. -/
structure AdvancedSetting where
  collecting_device : String
  offset_limit : Int
  lr : Int
  interested_types : List String
  step : Int
  correct_bias : Bool
  check : Bool
  max_trys : Int
  deriving DecidableEq, Repr

/-- Modelled from the spec: extension parameters (opaque). -/
structure ExtensionSetting where
  my_first_parameter : Int
  deriving DecidableEq, Repr

/-- Modelled from the spec: the `QuantizationSetting` tree of boolean
toggles, each gating a nested parameter object (field names are the
ones read by `create_optim_pipeline_from_setting`). -/
structure QuantizationSetting where
  equalization : Bool
  equalization_setting : EqualizationSetting
  ssd_equalization : Bool
  ssd_setting : SSDSetting
  fusion : Bool
  fusion_setting : FusionSetting
  quantize_parameter : Bool
  quantize_parameter_setting : ParameterSetting
  quantize_activation : Bool
  quantize_activation_setting : ActivationSetting
  advanced_optimization : Bool
  advanced_optimization_setting : AdvancedSetting
  extension : Bool
  extension_setting : ExtensionSetting
  deriving DecidableEq, Repr

/-- A Python value handed to `quantize` as `setting`: either an actual
`QuantizationSetting` instance or an object of some other type (whose
type name we record), for the `isinstance` assertion at line 217. -/
inductive PySetting where
  | valid (s : QuantizationSetting)
  | invalid (type_name : String)
  deriving DecidableEq, Repr

/-! ## Optimization passes

Each pass of `ppq.quantization.optim` is embedded as pure data: a
constructor carrying exactly the arguments `create_optim_pipeline_from_setting`
passes to it (the numerical pass bodies are outside the spec's scope).
`ParameterBakingPass` is constructed from `executor.quantize_function`,
which we embed as an opaque `Nat` token. -/
inductive Pass where
  | LayerwiseEqualizationPass (optimize_level iterations weight_threshold : Int)
      (including_bias including_activation : Bool)
      (bias_mutiplier activation_mutiplier : Int)
  | SSDEqualizationPass (optimize_level channel_ratio loss_threshold : Int)
      (layer_norm : Bool) (iteration : Int)
  | QuantizeRefinePass
  | QuantizeReducePass
  | QuantizeFusionPass (platform : TargetPlatform)
      (fuse_concat fuse_activation fuse_passive_op : Bool)
  | PPLCudaAddConvReluMerge
  | ParameterQuantizePass (method : String)
  | ParameterBakingPass (quantize_function : Nat)
  | RuntimePerlayerCalibrationPass (method : String)
  | RuntimeCalibrationPass (method : String) (override : Bool)
  | InplaceQuantizationSettingPass
  | PassiveParameterQuantizePass
  | AdvancedQuantOptimization (collecting_device : String)
      (offset_limit lr : Int) (interested_types : List String) (step : Int)
      (correct_bias check : Bool) (max_trys : Int)
  | ExtensionPass (my_first_parameter : Int)
  deriving DecidableEq, Repr

/-- Errors that `create_optim_pipeline_from_setting` can raise: the
`assert isinstance(setting, QuantizationSetting)` at line 217
(`AssertionError` recording the offending type name), and Python's
`NameError` when a local variable is read while unbound. -/
inductive BuildError where
  | assertionError (given_type : String)
  | nameError (var : String)
  deriving DecidableEq, Repr

/-- `BaseQuantizer.create_optim_pipeline_from_setting` (lines 214-316),
embedded segment by segment in source order.  `target_platform` is
`self.target_platform` (read at line 254) and `quantize_function` is
`executor.quantize_function` (lines 270 and 310).

The branch at lines 302-305 reads the local variable `act_setting`,
which is bound only inside the `if setting.quantize_activation:` block
(line 273); when `advanced_optimization` is enabled while
`quantize_activation` is disabled, Python raises
`NameError: name 'act_setting' is not defined` while constructing the
forced recalibration pass, which we embed as the explicit
`nameError "act_setting"` branch below.  The `RuntimeCalibrationPass`
at line 278 is constructed without an `override` argument; its
constructor default is `override = False` (the spec reserves "override
mode" for the forced recalibration after advanced optimization). -/
def create_optim_pipeline_from_setting (target_platform : TargetPlatform)
    (quantize_function : Nat) (setting : PySetting) :
    Except BuildError (List Pass) :=
  match setting with
  | .invalid type_name => .error (.assertionError type_name)
  | .valid s =>
    -- lines 223-233
    let eq_passes : List Pass :=
      if s.equalization then
        [.LayerwiseEqualizationPass s.equalization_setting.opt_level
          s.equalization_setting.iterations s.equalization_setting.value_threshold
          s.equalization_setting.including_bias s.equalization_setting.including_act
          s.equalization_setting.bias_multiplier s.equalization_setting.act_multiplier]
      else []
    -- lines 235-243
    let ssd_passes : List Pass :=
      if s.ssd_equalization then
        [.SSDEqualizationPass s.ssd_setting.opt_level s.ssd_setting.channel_ratio
          s.ssd_setting.loss_threshold s.ssd_setting.layer_norm s.ssd_setting.iteration]
      else []
    -- lines 245-261
    let fusion_passes : List Pass :=
      if s.fusion then
        (if s.fusion_setting.refine_quantization then [.QuantizeRefinePass] else []) ++
        (if s.fusion_setting.remove_useless_quantization then [.QuantizeReducePass] else []) ++
        [.QuantizeFusionPass target_platform s.fusion_setting.fuse_concat
          s.fusion_setting.fuse_activation s.fusion_setting.fuse_passive_op] ++
        (if s.fusion_setting.fuse_conv_add then [.PPLCudaAddConvReluMerge] else [])
      else []
    -- lines 263-270
    let param_passes : List Pass :=
      if s.quantize_parameter then
        [.ParameterQuantizePass s.quantize_parameter_setting.calib_algorithm] ++
        (if s.quantize_parameter_setting.baking_parameter then
          [.ParameterBakingPass quantize_function] else [])
      else []
    -- lines 272-282
    let act_passes : List Pass :=
      if s.quantize_activation then
        (if s.quantize_activation_setting.per_layer_calibration then
          [.RuntimePerlayerCalibrationPass s.quantize_activation_setting.calib_algorithm]
        else
          [.RuntimeCalibrationPass s.quantize_activation_setting.calib_algorithm false]) ++
        (if s.quantize_activation_setting.inplace_act_quantization then
          [.InplaceQuantizationSettingPass] else [])
      else []
    -- lines 284-287
    let passive_passes : List Pass :=
      if s.quantize_parameter then
        (if s.quantize_parameter_setting.quantize_passive_parameter then
          [.PassiveParameterQuantizePass] else [])
      else []
    -- lines 289-305: reading `act_setting` at line 305 raises NameError
    -- when the `quantize_activation` branch (line 273) never bound it.
    if s.advanced_optimization && !s.quantize_activation then
      .error (.nameError "act_setting")
    else
      let adv_passes : List Pass :=
        if s.advanced_optimization then
          [.AdvancedQuantOptimization s.advanced_optimization_setting.collecting_device
            s.advanced_optimization_setting.offset_limit s.advanced_optimization_setting.lr
            s.advanced_optimization_setting.interested_types s.advanced_optimization_setting.step
            s.advanced_optimization_setting.correct_bias s.advanced_optimization_setting.check
            s.advanced_optimization_setting.max_trys,
          .RuntimeCalibrationPass s.quantize_activation_setting.calib_algorithm true]
        else []
      -- lines 307-310
      let baking_again_passes : List Pass :=
        if s.quantize_parameter then
          (if s.quantize_parameter_setting.baking_parameter then
            [.ParameterBakingPass quantize_function] else [])
        else []
      -- lines 312-314
      let extension_passes : List Pass :=
        if s.extension then
          [.ExtensionPass s.extension_setting.my_first_parameter]
        else []
      .ok (eq_passes ++ ssd_passes ++ fusion_passes ++ param_passes ++
        act_passes ++ passive_passes ++ adv_passes ++ baking_again_passes ++
        extension_passes)

/-! ## `quantize_operations` (lines 80-148)

The quantizer profile bundles the abstract members read by
`quantize_operations`: `quant_operation_types`, `target_platform`,
`default_platform` and `init_quantize_config` (spec §6, "Quantizer
profile").  Errors carry the relevant operation name; `keyError`
embeds a Python `KeyError` on one of the two dict arguments. -/

structure QuantizerProfile where
  quant_operation_types : List String
  target_platform : TargetPlatform
  default_platform : TargetPlatform
  init_quantize_config : OperationMeta → String → OperationQuantizationConfig

inductive QError where
  | metadataError (op_name : String)
  | alreadyQuantized (op_name : String)
  | keyError (op_name : String)
  deriving DecidableEq, Repr

/-- The platform precedence of lines 93-98: keep a pre-existing
non-`UNSPECIFIED` platform; otherwise `target_platform` for operations
of a quantable type; otherwise `default_platform`. -/
def resolve_platform (prof : QuantizerProfile) (operation : Op) : TargetPlatform :=
  if Op.platform operation ≠ TargetPlatform.UNSPECIFIED then Op.platform operation
  else if Op.op_type operation ∈ prof.quant_operation_types then prof.target_platform
  else prof.default_platform

/-- The first loop of `quantize_operations` (lines 92-102): for every
operation, store the precedence-resolved platform into the
`operation_platforms` dict (each of the three branches assigns
`operation_platforms[op_name]`), then — under the always-true
`if op_name in operation_platforms` guard labelled `# maunnl override.` —
write the dict entry back onto the operation.  Returns the dict and the
mutated graph. -/
def platform_assignment (prof : QuantizerProfile)
    (operation_platforms : List (String × TargetPlatform)) :
    List (String × Op) → List (String × TargetPlatform) × List (String × Op)
  | [] => (operation_platforms, [])
  | (op_name, operation) :: rest =>
      let operation_platforms1 :=
        if Op.platform operation ≠ TargetPlatform.UNSPECIFIED then
          dict_set operation_platforms op_name (Op.platform operation)
        else if Op.op_type operation ∈ prof.quant_operation_types then
          dict_set operation_platforms op_name prof.target_platform
        else
          dict_set operation_platforms op_name prof.default_platform
      let operation1 :=
        match dict_get operation_platforms1 op_name with
        | some platform => Op.set_platform operation platform
        | none => operation
      let result := platform_assignment prof operation_platforms1 rest
      (result.1, (op_name, operation1) :: result.2)

/-- The second loop of `quantize_operations` (lines 108-120): skip
operations whose dict platform is not a quantized platform; raise
`ValueError` (here `metadataError`) when a quantized-platform operation
has no traced metadata; for quantable-type operations not already
present in `operation_quantization_configs`, build a config with the
profile's `init_quantize_config`.  Returns the configs dict as built at
the moment the loop stops, plus the error if one was raised. -/
def build_quant_configs (prof : QuantizerProfile)
    (operation_platforms : List (String × TargetPlatform))
    (operation_quantization_configs : List (String × OperationQuantizationConfig)) :
    List (String × Op) →
      List (String × OperationQuantizationConfig) × Option QError
  | [] => (operation_quantization_configs, none)
  | (op_name, operation) :: rest =>
      match dict_get operation_platforms op_name with
      | none => (operation_quantization_configs, some (.keyError op_name))
      | some platform =>
        if TargetPlatform.is_quantized_platform platform then
          match Op.meta_data operation with
          | none => (operation_quantization_configs, some (.metadataError op_name))
          | some md =>
            if Op.op_type operation ∈ prof.quant_operation_types then
              if (dict_get operation_quantization_configs op_name).isSome then
                build_quant_configs prof operation_platforms
                  operation_quantization_configs rest
              else
                build_quant_configs prof operation_platforms
                  (dict_set operation_quantization_configs op_name
                    (prof.init_quantize_config md (Op.op_type operation))) rest
            else
              build_quant_configs prof operation_platforms
                operation_quantization_configs rest
        else
          build_quant_configs prof operation_platforms
            operation_quantization_configs rest

/-- The third loop of `quantize_operations` (lines 122-148): raise
`TypeError` (here `alreadyQuantized`) on the first operation that is
already a `QuantableOperation`; convert quantized-platform operations
through the `QuantizeOperationCommand`; write the dict platform onto the
others.  The conversion itself (`GraphReplacer`, not under `src/`) is
modelled from the spec §4.3: the command "carrying the operation name,
its resolved platform, and its OperationQuantizationConfig ... locates
the operation by name and replaces it in place" with a
`QuantableOperation`.  On an error the already-processed prefix keeps
its mutations and the remaining suffix is returned untouched, exactly
as a raised Python exception leaves the graph. -/
def convert_loop (prof : QuantizerProfile)
    (operation_platforms : List (String × TargetPlatform))
    (operation_quantization_configs : List (String × OperationQuantizationConfig)) :
    List (String × Op) → List (String × Op) × Option QError
  | [] => ([], none)
  | (op_name, operation) :: rest =>
      if Op.is_quantable operation then
        ((op_name, operation) :: rest, some (.alreadyQuantized op_name))
      else
        match dict_get operation_platforms op_name with
        | none => ((op_name, operation) :: rest, some (.keyError op_name))
        | some target_platform =>
          if TargetPlatform.is_quantized_platform target_platform then
            match dict_get operation_quantization_configs op_name with
            | none => ((op_name, operation) :: rest, some (.keyError op_name))
            | some quantization_config =>
              let converted : Op :=
                .quantable { Op.operation operation with platform := target_platform }
                  quantization_config
              let result := convert_loop prof operation_platforms
                operation_quantization_configs rest
              ((op_name, converted) :: result.1, result.2)
          else
            let result := convert_loop prof operation_platforms
              operation_quantization_configs rest
            ((op_name, Op.set_platform operation target_platform) :: result.1, result.2)

/-- `BaseQuantizer.quantize_operations` (lines 80-148): the three loops
in sequence.  The result is the graph as mutated when the call returned
or raised, together with the raised error if any. -/
def quantize_operations (prof : QuantizerProfile) (g : Graph)
    (operation_platforms : List (String × TargetPlatform))
    (operation_quantization_configs : List (String × OperationQuantizationConfig)) :
    Graph × Option QError :=
  let pa := platform_assignment prof operation_platforms g
  let bc := build_quant_configs prof pa.1 operation_quantization_configs pa.2
  match bc.2 with
  | some e => (pa.2, some e)
  | none => convert_loop prof pa.1 bc.1 pa.2

/-- `BaseQuantizer.create_default_quant_config` (lines 150-166): build
`num_of_input + num_of_output` identical tensor configs and split them
into the input and output sublists.  The `TensorQuantizationConfig`
constructor (from `ppq.core`, not under `src/`) is modelled from the
spec: entries start with "uninitialized scale/offset, state =
uninitialized"; `scale=None, offset=None` are passed explicitly at
line 159. -/
def create_default_quant_config (operation_meta : OperationMeta)
    (num_of_bits : Int) (quant_min quant_max : Int) (observer_algorithm : String)
    (policy : QuantizationPolicy) (rounding : RoundingPolicy) :
    OperationQuantizationConfig :=
  let num_of_related_vars := operation_meta.num_of_input + operation_meta.num_of_output
  let configs := List.replicate num_of_related_vars
    { policy := policy, rounding := rounding, num_of_bits := num_of_bits,
      scale := none, offset := none, quant_min := quant_min,
      quant_max := quant_max, observer_algorithm := observer_algorithm,
      state := QuantizationStates.INITIAL : TensorQuantizationConfig }
  { input_quantization_config := configs.take operation_meta.num_of_input,
    output_quantization_config := configs.drop operation_meta.num_of_input }

/-! ## `quantize` (lines 35-78) -/

inductive MainError where
  | quantizeOperationsError (e : QError)
  | pipelineBuildError (e : BuildError)
  | exportError (op_name : String)
  deriving DecidableEq, Repr

/-- The post-pipeline check of lines 69-78: for every config of every
`QuantableOperation`, `if QuantizationStates.can_export(config.state)
and False:` raise `RuntimeError` naming the operation. -/
def check_export_configs : List (String × Op) → Option String
  | [] => none
  | (op_name, operation) :: rest =>
      match operation with
      | .quantable _ cfg =>
        if (cfg.input_quantization_config ++ cfg.output_quantization_config).any
            (fun config => QuantizationStates.can_export config.state && false) then
          some op_name
        else check_export_configs rest
      | .plain _ => check_export_configs rest

/-- `BaseQuantizer.quantize` (lines 35-78).
`tracing_operation_meta` stands for the collaborator call
`executor.tracing_operation_meta(inputs=inputs)` (spec §6: "populates
per-operation input/output arity ..., required before Config
Initializer runs") and `run_pipeline` for
`self._graph_optimize_pipeline.optimize(...)` (the pass bodies are
external collaborators); `quantize_function` is
`executor.quantize_function`.  Note the order: the graph is quantized
(step 2) before the setting is even looked at by
`create_optim_pipeline_from_setting` (step 3). -/
def quantize (prof : QuantizerProfile)
    (tracing_operation_meta : List (String × Op) → List (String × Op))
    (run_pipeline : List Pass → List (String × Op) → List (String × Op))
    (quantize_function : Nat) (g : Graph) (setting : PySetting) :
    Graph × Option MainError :=
  let g1 := tracing_operation_meta g
  match quantize_operations prof g1 [] [] with
  | (g2, some e) => (g2, some (.quantizeOperationsError e))
  | (g2, none) =>
    match create_optim_pipeline_from_setting prof.target_platform quantize_function setting with
    | .error e => (g2, some (.pipelineBuildError e))
    | .ok passes =>
      let g3 := run_pipeline passes g2
      match check_export_configs g3 with
      | some op_name => (g3, some (.exportError op_name))
      | none => (g3, none)

/-! ## Concrete fixtures (for witnesses and counterexamples) -/

/-- A concrete quantizer profile: Conv/Gemm quantize to `PPL_CUDA_INT8`,
everything else runs on `FP32`. -/
def prof0 : QuantizerProfile :=
  { quant_operation_types := ["Conv", "Gemm"],
    target_platform := .PPL_CUDA_INT8,
    default_platform := .FP32,
    init_quantize_config := fun md _ =>
      create_default_quant_config md 8 (-128) 127 "minmax"
        .PER_TENSOR_SYMMETRIC .ROUND_HALF_EVEN }

/-- A degenerate profile whose `default_platform` is `UNSPECIFIED`. -/
def profUnspec : QuantizerProfile :=
  { prof0 with default_platform := .UNSPECIFIED }

def opConv : Op :=
  .plain { op_type := "Conv", platform := .UNSPECIFIED, meta_data := some ⟨2, 1⟩ }

def opRelu : Op :=
  .plain { op_type := "Relu", platform := .UNSPECIFIED, meta_data := some ⟨1, 1⟩ }

def opNoMeta : Op :=
  .plain { op_type := "Conv", platform := .UNSPECIFIED, meta_data := none }

def cfg0 : OperationQuantizationConfig :=
  create_default_quant_config ⟨2, 1⟩ 8 (-128) 127 "minmax"
    .PER_TENSOR_SYMMETRIC .ROUND_HALF_EVEN

/-- An operation that is already a `QuantableOperation`. -/
def opOld : Op :=
  .quantable { op_type := "Gemm", platform := .PPL_CUDA_INT8, meta_data := some ⟨2, 1⟩ } cfg0

/-- A graph that already contains a `QuantableOperation` (`"old"`),
preceded by a plain quantizable operation. -/
def gOld : Graph := [("conv1", opConv), ("old", opOld)]

/-- A single-operation graph with untraced metadata. -/
def gRaw : Graph := [("conv1", opNoMeta)]

/-- The collaborator `executor.tracing_operation_meta`: gives every plain
operation traced arity 2/1. -/
def trace0 : List (String × Op) → List (String × Op) :=
  fun g => g.map (fun p => (p.1,
    match p.2 with
    | .plain o => .plain { o with meta_data := some ⟨2, 1⟩ }
    | q => q))

/-- A pipeline runner that leaves the graph unchanged (never reached in
the C8 counterexample). -/
def run_id : List Pass → List (String × Op) → List (String × Op) := fun _ g => g

/-- Settings: everything off except `quantize_parameter` (with
`baking_parameter`) and `advanced_optimization`; `quantize_activation`
off, so reading `act_setting` raises `NameError`. -/
def s_adv_noact : QuantizationSetting :=
  { equalization := false, equalization_setting := ⟨0, 0, 0, false, false, 0, 0⟩,
    ssd_equalization := false, ssd_setting := ⟨0, 0, 0, false, 0⟩,
    fusion := false, fusion_setting := ⟨false, false, false, false, false, false⟩,
    quantize_parameter := true, quantize_parameter_setting := ⟨"minmax", true, false⟩,
    quantize_activation := false, quantize_activation_setting := ⟨"kl", false, false⟩,
    advanced_optimization := true,
    advanced_optimization_setting := ⟨"cpu", 10, 1, ["Conv"], 2, true, false, 8⟩,
    extension := false, extension_setting := ⟨0⟩ }

/-- Same as `s_adv_noact` but with `quantize_activation` enabled. -/
def s_c1 : QuantizationSetting :=
  { s_adv_noact with quantize_activation := true }

/-- Settings with only `fusion` enabled, and of its sub-flags only
`remove_useless_quantization` and `fuse_activation`. -/
def s_fusion_only : QuantizationSetting :=
  { s_adv_noact with
    quantize_parameter := false, advanced_optimization := false, fusion := true,
    fusion_setting := ⟨false, true, false, true, false, false⟩ }

/-! # Theorems -/

@[simp] theorem set_platform_platform (op : Op) (p : TargetPlatform) :
    Op.platform (Op.set_platform op p) = p := by
  cases op <;> rfl

@[simp] theorem set_platform_op_type (op : Op) (p : TargetPlatform) :
    Op.op_type (Op.set_platform op p) = Op.op_type op := by
  cases op <;> rfl

@[simp] theorem set_platform_meta_data (op : Op) (p : TargetPlatform) :
    Op.meta_data (Op.set_platform op p) = Op.meta_data op := by
  cases op <;> rfl

@[simp] theorem set_platform_is_quantable (op : Op) (p : TargetPlatform) :
    Op.is_quantable (Op.set_platform op p) = Op.is_quantable op := by
  cases op <;> rfl

/-- Unfolding one step of the first loop: the dict receives the
precedence-resolved platform and the operation is updated to it. -/
theorem platform_assignment_cons (prof : QuantizerProfile)
    (d : List (String × TargetPlatform)) (n : String) (op : Op)
    (rest : List (String × Op)) :
    platform_assignment prof d ((n, op) :: rest) =
      ((platform_assignment prof (dict_set d n (resolve_platform prof op)) rest).1,
       (n, Op.set_platform op (resolve_platform prof op)) ::
         (platform_assignment prof (dict_set d n (resolve_platform prof op)) rest).2) := by
  simp only [platform_assignment, resolve_platform]
  split_ifs with h1 h2 <;> simp [dict_get_set_self]

/-- The graph returned by the first loop is a pointwise update of the
input graph with the precedence-resolved platforms. -/
theorem platform_assignment_snd (prof : QuantizerProfile)
    (d : List (String × TargetPlatform)) (g : List (String × Op)) :
    (platform_assignment prof d g).2 =
      g.map (fun p => (p.1, Op.set_platform p.2 (resolve_platform prof p.2))) := by
  induction g generalizing d with
  | nil => rfl
  | cons hd tl ih =>
    obtain ⟨n, op⟩ := hd
    rw [platform_assignment_cons]
    simp [ih]

/-- Names not occurring in the graph keep their dict entry through the
first loop. -/
theorem platform_assignment_fst_not_mem (prof : QuantizerProfile)
    (d : List (String × TargetPlatform)) (g : List (String × Op)) (n : String)
    (h : n ∉ g.map Prod.fst) :
    dict_get (platform_assignment prof d g).1 n = dict_get d n := by
  induction g generalizing d with
  | nil => rfl
  | cons hd tl ih =>
    obtain ⟨m, op⟩ := hd
    rw [platform_assignment_cons]
    simp only [List.map_cons, List.mem_cons, not_or] at h
    rw [ih _ h.2, dict_get_set_ne _ _ _ _ (fun e => h.1 e.symm)]

/-- For graphs with distinct operation names, the dict produced by the
first loop maps every operation name to its precedence-resolved
platform, whatever the caller-supplied dict contained. -/
theorem platform_assignment_fst_mem (prof : QuantizerProfile)
    (d : List (String × TargetPlatform)) (g : List (String × Op)) (n : String) (op : Op)
    (hnd : (g.map Prod.fst).Nodup) (hmem : (n, op) ∈ g) :
    dict_get (platform_assignment prof d g).1 n = some (resolve_platform prof op) := by
  induction g generalizing d with
  | nil => cases hmem
  | cons hd tl ih =>
    obtain ⟨m, op'⟩ := hd
    rw [platform_assignment_cons]
    simp only [List.map_cons, List.nodup_cons] at hnd
    rcases List.mem_cons.mp hmem with heq | htl
    · obtain ⟨rfl, rfl⟩ : n = m ∧ op = op' := Prod.mk.injEq .. ▸ heq
      have hmem' : n ∉ tl.map Prod.fst := by
        simpa using hnd.1
      rw [platform_assignment_fst_not_mem _ _ _ _ hmem', dict_get_set_self]
    · exact ih _ hnd.2 htl

/-- C4 counterexample input: a profile whose `default_platform` is
`UNSPECIFIED` leaves a non-quantizable operation `UNSPECIFIED`. -/
theorem C4_counterexample :
    (platform_assignment profUnspec [] [("relu1", opRelu)]).2 =
        [("relu1", opRelu)] ∧
      Op.platform opRelu = TargetPlatform.UNSPECIFIED := by
  constructor
  · decide
  · decide

/-- C4 (amended): for every graph, every caller-supplied override dict
and every quantizer profile whose `target_platform` and
`default_platform` are themselves specified, after the
platform-assignment loop every operation carries the
precedence-resolved platform — a pre-existing non-`UNSPECIFIED`
platform is kept, else `target_platform` for quantable types, else
`default_platform` — and in particular no operation is left
`UNSPECIFIED`. -/
theorem C4_platform_assignment_total (prof : QuantizerProfile)
    (hT : prof.target_platform ≠ TargetPlatform.UNSPECIFIED)
    (hD : prof.default_platform ≠ TargetPlatform.UNSPECIFIED)
    (d : List (String × TargetPlatform)) (g : List (String × Op)) :
    List.Forall₂
      (fun a b => a.1 = b.1 ∧ Op.platform b.2 = resolve_platform prof a.2 ∧
        Op.platform b.2 ≠ TargetPlatform.UNSPECIFIED)
      g (platform_assignment prof d g).2 := by
  rw [platform_assignment_snd]
  induction g with
  | nil => exact List.Forall₂.nil
  | cons hd tl ih =>
    refine List.Forall₂.cons ⟨rfl, ?_, ?_⟩ ih
    · simp
    · simp only [set_platform_platform, resolve_platform]
      split_ifs with h1 h2
      · exact h1
      · exact hT
      · exact hD

/-- Witness for C4 (amended) at the concrete profile `prof0` and a
two-operation graph. -/
theorem C4_witness :
    prof0.target_platform ≠ TargetPlatform.UNSPECIFIED ∧
      prof0.default_platform ≠ TargetPlatform.UNSPECIFIED ∧
      List.Forall₂
        (fun a b => a.1 = b.1 ∧ Op.platform b.2 = resolve_platform prof0 a.2 ∧
          Op.platform b.2 ≠ TargetPlatform.UNSPECIFIED)
        [("conv1", opConv), ("relu1", opRelu)]
        (platform_assignment prof0 [] [("conv1", opConv), ("relu1", opRelu)]).2 :=
  ⟨by decide, by decide,
    C4_platform_assignment_total prof0 (by decide) (by decide) []
      [("conv1", opConv), ("relu1", opRelu)]⟩

/-- C5: the caller-supplied `operation_platforms` entry for an
`UNSPECIFIED` operation is overwritten by the engine-computed platform
before the write-back — the platform written onto `"conv1"` is the
profile's `target_platform`, not the caller's `FP32`.  This contradicts
the source's own `# maunnl override.` comment and the (dead)
`if op_name in operation_platforms` guard at lines 100-101. -/
theorem C5_override_ignored :
    Op.platform opConv = TargetPlatform.UNSPECIFIED ∧
      (platform_assignment prof0 [("conv1", TargetPlatform.FP32)] [("conv1", opConv)]).2 =
        [("conv1", Op.set_platform opConv TargetPlatform.PPL_CUDA_INT8)] ∧
      dict_get
        (platform_assignment prof0 [("conv1", TargetPlatform.FP32)] [("conv1", opConv)]).1
        "conv1" = some TargetPlatform.PPL_CUDA_INT8 ∧
      TargetPlatform.PPL_CUDA_INT8 ≠ TargetPlatform.FP32 := by
  refine ⟨by decide, by decide, by decide, by decide⟩

/-- C7: the default config builder returns exactly `num_of_input` input
entries and `num_of_output` output entries, each with unset scale and
offset and the uninitialized lifecycle state. -/
theorem C7_default_config_shape (operation_meta : OperationMeta)
    (num_of_bits quant_min quant_max : Int) (observer_algorithm : String)
    (policy : QuantizationPolicy) (rounding : RoundingPolicy) :
    (create_default_quant_config operation_meta num_of_bits quant_min quant_max
        observer_algorithm policy rounding).input_quantization_config.length =
        operation_meta.num_of_input ∧
      (create_default_quant_config operation_meta num_of_bits quant_min quant_max
        observer_algorithm policy rounding).output_quantization_config.length =
        operation_meta.num_of_output ∧
      ∀ c ∈ (create_default_quant_config operation_meta num_of_bits quant_min quant_max
          observer_algorithm policy rounding).input_quantization_config ++
        (create_default_quant_config operation_meta num_of_bits quant_min quant_max
          observer_algorithm policy rounding).output_quantization_config,
        c.scale = none ∧ c.offset = none ∧ c.state = QuantizationStates.INITIAL := by
  refine ⟨?_, ?_, ?_⟩
  · simp [create_default_quant_config]
  · simp [create_default_quant_config]
  · intro c hc
    rcases List.mem_append.mp hc with h | h
    · have := List.eq_of_mem_replicate (List.mem_of_mem_take h)
      subst this; exact ⟨rfl, rfl, rfl⟩
    · have := List.eq_of_mem_replicate (List.mem_of_mem_drop h)
      subst this; exact ⟨rfl, rfl, rfl⟩

/-- C9: the post-pipeline "all configs must be exportable" check never
raises on any graph: its condition is `can_export(state) and False`,
so the error branch is unreachable. -/
theorem C9_export_check_disabled (g : List (String × Op)) :
    check_export_configs g = none := by
  induction g with
  | nil => rfl
  | cons hd tl ih =>
    obtain ⟨n, op⟩ := hd
    cases op with
    | plain o => simpa [check_export_configs] using ih
    | quantable o cfg =>
      have hany : ∀ l : List TensorQuantizationConfig,
          l.any (fun config => QuantizationStates.can_export config.state && false) = false := by
        intro l; induction l with
        | nil => rfl
        | cons c cs ihc => simp [List.any, ihc]
      simpa [check_export_configs, hany] using ih

/-- C2: with only `fusion.remove_useless_quantization` and
`fusion.fuse_activation` enabled (every other toggle and fusion
sub-flag disabled), the builder returns exactly
`[QuantizeReducePass, QuantizeFusionPass]` in that order. -/
theorem C2_fusion_only_pipeline (tp : TargetPlatform) (qf : Nat)
    (s : QuantizationSetting)
    (heq : s.equalization = false) (hssd : s.ssd_equalization = false)
    (hfus : s.fusion = true)
    (hrefine : s.fusion_setting.refine_quantization = false)
    (hreduce : s.fusion_setting.remove_useless_quantization = true)
    (hconcat : s.fusion_setting.fuse_concat = false)
    (hact : s.fusion_setting.fuse_activation = true)
    (hpassive : s.fusion_setting.fuse_passive_op = false)
    (hconv : s.fusion_setting.fuse_conv_add = false)
    (hqp : s.quantize_parameter = false) (hqa : s.quantize_activation = false)
    (hadv : s.advanced_optimization = false) (hext : s.extension = false) :
    create_optim_pipeline_from_setting tp qf (.valid s) =
      .ok [Pass.QuantizeReducePass, Pass.QuantizeFusionPass tp false true false] := by
  simp [create_optim_pipeline_from_setting, heq, hssd, hfus, hrefine, hreduce,
    hconcat, hact, hpassive, hconv, hqp, hqa, hadv, hext]

/-- Witness for C2 at the concrete settings `s_fusion_only`. -/
theorem C2_witness :
    s_fusion_only.equalization = false ∧
      s_fusion_only.ssd_equalization = false ∧
      s_fusion_only.fusion = true ∧
      s_fusion_only.fusion_setting.refine_quantization = false ∧
      s_fusion_only.fusion_setting.remove_useless_quantization = true ∧
      s_fusion_only.fusion_setting.fuse_concat = false ∧
      s_fusion_only.fusion_setting.fuse_activation = true ∧
      s_fusion_only.fusion_setting.fuse_passive_op = false ∧
      s_fusion_only.fusion_setting.fuse_conv_add = false ∧
      s_fusion_only.quantize_parameter = false ∧
      s_fusion_only.quantize_activation = false ∧
      s_fusion_only.advanced_optimization = false ∧
      s_fusion_only.extension = false ∧
      create_optim_pipeline_from_setting TargetPlatform.PPL_CUDA_INT8 7
          (.valid s_fusion_only) =
        .ok [Pass.QuantizeReducePass,
          Pass.QuantizeFusionPass TargetPlatform.PPL_CUDA_INT8 false true false] :=
  ⟨rfl, rfl, rfl, rfl, rfl, rfl, rfl, rfl, rfl, rfl, rfl, rfl, rfl,
    C2_fusion_only_pipeline TargetPlatform.PPL_CUDA_INT8 7 s_fusion_only
      rfl rfl rfl rfl rfl rfl rfl rfl rfl rfl rfl rfl rfl⟩

/-- C10: with `advanced_optimization` enabled and `quantize_activation`
disabled, the builder fails with the unbound-name error on
`act_setting` while constructing the forced recalibration pass, and no
pipeline is returned. -/
theorem C10_nameerror_act_setting (tp : TargetPlatform) (qf : Nat)
    (s : QuantizationSetting) (hadv : s.advanced_optimization = true)
    (hqa : s.quantize_activation = false) :
    create_optim_pipeline_from_setting tp qf (.valid s) =
      .error (.nameError "act_setting") := by
  simp [create_optim_pipeline_from_setting, hadv, hqa]

/-! ### Lemmas about the second and third loops of `quantize_operations` -/

theorem dict_get_set_isSome {α : Type} (d : List (String × α)) (k n : String) (v : α)
    (h : (dict_get d n).isSome) : (dict_get (dict_set d k v) n).isSome := by
  by_cases hk : k = n
  · subst hk; simp
  · rwa [dict_get_set_ne _ _ _ _ hk]

/-- If every operation has a dict platform and every quantized-platform
operation has traced metadata, the second loop raises nothing. -/
theorem build_quant_configs_no_error (prof : QuantizerProfile)
    (platforms : List (String × TargetPlatform))
    (configs : List (String × OperationQuantizationConfig)) (l : List (String × Op))
    (hlook : ∀ p ∈ l, (dict_get platforms p.1).isSome)
    (hmeta : ∀ p ∈ l, ∀ pl, dict_get platforms p.1 = some pl →
      TargetPlatform.is_quantized_platform pl = true → (Op.meta_data p.2).isSome) :
    (build_quant_configs prof platforms configs l).2 = none := by
  induction l generalizing configs with
  | nil => rfl
  | cons hd tl ih =>
    obtain ⟨n, op⟩ := hd
    have hlook0 := hlook (n, op) (List.mem_cons_self _ _)
    cases hpl : dict_get platforms n with
    | none => rw [hpl] at hlook0; cases hlook0
    | some pl =>
      have hlook' : ∀ p ∈ tl, (dict_get platforms p.1).isSome :=
        fun p hp => hlook p (List.mem_cons_of_mem _ hp)
      have hmeta' : ∀ p ∈ tl, ∀ pl', dict_get platforms p.1 = some pl' →
          TargetPlatform.is_quantized_platform pl' = true → (Op.meta_data p.2).isSome :=
        fun p hp => hmeta p (List.mem_cons_of_mem _ hp)
      by_cases hq : TargetPlatform.is_quantized_platform pl = true
      · have hm := hmeta (n, op) (List.mem_cons_self _ _) pl hpl hq
        cases hmd : Op.meta_data op with
        | none => rw [hmd] at hm; cases hm
        | some md =>
          by_cases ht : Op.op_type op ∈ prof.quant_operation_types
          · by_cases hc : (dict_get configs n).isSome
            · simp only [build_quant_configs, hpl, hq, if_pos ht, hc, hmd, if_true]
              exact ih _ hlook' hmeta'
            · simp only [build_quant_configs, hpl, hq, if_pos ht, hmd,
                eq_self_iff_true, if_true, Bool.not_eq_true] at hc ⊢
              rw [if_neg (by simp [hc])]
              exact ih _ hlook' hmeta'
          · simp only [build_quant_configs, hpl, hq, hmd, if_neg ht, if_true]
            exact ih _ hlook' hmeta'
      · simp only [build_quant_configs, hpl, if_neg hq]
        exact ih _ hlook' hmeta'

/-- If some operation of the list has a quantized dict platform and no
traced metadata, the second loop stops with a `metadataError` naming
such an operation, and at that moment no config has been built for it. -/
theorem build_quant_configs_metadata_error (prof : QuantizerProfile)
    (platforms : List (String × TargetPlatform))
    (configs : List (String × OperationQuantizationConfig)) (l : List (String × Op))
    (hnd : (l.map Prod.fst).Nodup)
    (hlook : ∀ p ∈ l, (dict_get platforms p.1).isSome)
    (hcfg : ∀ p ∈ l, (∃ pl, dict_get platforms p.1 = some pl ∧
        TargetPlatform.is_quantized_platform pl = true ∧ Op.meta_data p.2 = none) →
      dict_get configs p.1 = none)
    (hex : ∃ p ∈ l, ∃ pl, dict_get platforms p.1 = some pl ∧
      TargetPlatform.is_quantized_platform pl = true ∧ Op.meta_data p.2 = none) :
    ∃ p ∈ l, (∃ pl, dict_get platforms p.1 = some pl ∧
        TargetPlatform.is_quantized_platform pl = true ∧ Op.meta_data p.2 = none) ∧
      (build_quant_configs prof platforms configs l).2 = some (.metadataError p.1) ∧
      dict_get (build_quant_configs prof platforms configs l).1 p.1 = none := by
  induction l generalizing configs with
  | nil => obtain ⟨p, hp, _⟩ := hex; cases hp
  | cons hd tl ih =>
    obtain ⟨n, op⟩ := hd
    simp only [List.map_cons, List.nodup_cons] at hnd
    have hlook0 := hlook (n, op) (List.mem_cons_self _ _)
    cases hpl : dict_get platforms n with
    | none => rw [hpl] at hlook0; cases hlook0
    | some pl =>
      have hlook' : ∀ p ∈ tl, (dict_get platforms p.1).isSome :=
        fun p hp => hlook p (List.mem_cons_of_mem _ hp)
      by_cases hq : TargetPlatform.is_quantized_platform pl = true
      · cases hmd : Op.meta_data op with
        | none =>
          -- the head itself is a violating operation: the loop raises here
          refine ⟨(n, op), List.mem_cons_self _ _, ⟨pl, hpl, hq, hmd⟩, ?_, ?_⟩
          · simp [build_quant_configs, hpl, hq, if_pos rfl, hmd]
          · simp [build_quant_configs, hpl, hq, if_pos rfl, hmd]
            exact hcfg (n, op) (List.mem_cons_self _ _) ⟨pl, hpl, hq, hmd⟩
        | some md =>
          have hex' : ∃ p ∈ tl, ∃ pl', dict_get platforms p.1 = some pl' ∧
              TargetPlatform.is_quantized_platform pl' = true ∧
              Op.meta_data p.2 = none := by
            obtain ⟨p, hp, pl', h1, h2, h3⟩ := hex
            rcases List.mem_cons.mp hp with heq | htl
            · exfalso
              obtain ⟨rfl, rfl⟩ : p.1 = n ∧ p.2 = op := by
                rw [heq]; exact ⟨rfl, rfl⟩
              rw [hmd] at h3; cases h3
            · exact ⟨p, htl, pl', h1, h2, h3⟩
          by_cases ht : Op.op_type op ∈ prof.quant_operation_types
          · by_cases hc : (dict_get configs n).isSome
            · have hcfg' : ∀ p ∈ tl, (∃ pl', dict_get platforms p.1 = some pl' ∧
                  TargetPlatform.is_quantized_platform pl' = true ∧
                  Op.meta_data p.2 = none) → dict_get configs p.1 = none :=
                fun p hp => hcfg p (List.mem_cons_of_mem _ hp)
              obtain ⟨p, hp, hbad, herr, hnone⟩ := ih _ hnd.2 hlook' hcfg' hex'
              refine ⟨p, List.mem_cons_of_mem _ hp, hbad, ?_, ?_⟩
              · simpa [build_quant_configs, hpl, hq, if_pos rfl, hmd,
                  if_pos ht, hc, if_true] using herr
              · simpa [build_quant_configs, hpl, hq, if_pos rfl, hmd,
                  if_pos ht, hc, if_true] using hnone
            · have hcfg' : ∀ p ∈ tl, (∃ pl', dict_get platforms p.1 = some pl' ∧
                  TargetPlatform.is_quantized_platform pl' = true ∧
                  Op.meta_data p.2 = none) →
                  dict_get (dict_set configs n
                    (prof.init_quantize_config md (Op.op_type op))) p.1 = none := by
                intro p hp hbad
                have hne : n ≠ p.1 := by
                  intro e
                  exact hnd.1 (e ▸ (List.mem_map.mpr ⟨p, hp, rfl⟩))
                rw [dict_get_set_ne _ _ _ _ hne]
                exact hcfg p (List.mem_cons_of_mem _ hp) hbad
              obtain ⟨p, hp, hbad, herr, hnone⟩ := ih _ hnd.2 hlook' hcfg' hex'
              refine ⟨p, List.mem_cons_of_mem _ hp, hbad, ?_, ?_⟩
              · simpa [build_quant_configs, hpl, hq, if_pos rfl, hmd,
                  if_pos ht, hc, if_false, Bool.false_eq_true] using herr
              · simpa [build_quant_configs, hpl, hq, if_pos rfl, hmd,
                  if_pos ht, hc, if_false, Bool.false_eq_true] using hnone
          · have hcfg' : ∀ p ∈ tl, (∃ pl', dict_get platforms p.1 = some pl' ∧
                TargetPlatform.is_quantized_platform pl' = true ∧
                Op.meta_data p.2 = none) → dict_get configs p.1 = none :=
              fun p hp => hcfg p (List.mem_cons_of_mem _ hp)
            obtain ⟨p, hp, hbad, herr, hnone⟩ := ih _ hnd.2 hlook' hcfg' hex'
            refine ⟨p, List.mem_cons_of_mem _ hp, hbad, ?_, ?_⟩
            · simpa [build_quant_configs, hpl, hq, if_pos rfl, hmd,
                if_neg ht] using herr
            · simpa [build_quant_configs, hpl, hq, if_pos rfl, hmd,
                if_neg ht] using hnone
      · have hex' : ∃ p ∈ tl, ∃ pl', dict_get platforms p.1 = some pl' ∧
            TargetPlatform.is_quantized_platform pl' = true ∧
            Op.meta_data p.2 = none := by
          obtain ⟨p, hp, pl', h1, h2, h3⟩ := hex
          rcases List.mem_cons.mp hp with heq | htl
          · exfalso
            obtain ⟨rfl, rfl⟩ : p.1 = n ∧ p.2 = op := by
              rw [heq]; exact ⟨rfl, rfl⟩
            rw [hpl] at h1
            cases h1
            exact hq h2
          · exact ⟨p, htl, pl', h1, h2, h3⟩
        have hcfg' : ∀ p ∈ tl, (∃ pl', dict_get platforms p.1 = some pl' ∧
            TargetPlatform.is_quantized_platform pl' = true ∧
            Op.meta_data p.2 = none) → dict_get configs p.1 = none :=
          fun p hp => hcfg p (List.mem_cons_of_mem _ hp)
        obtain ⟨p, hp, hbad, herr, hnone⟩ := ih _ hnd.2 hlook' hcfg' hex'
        refine ⟨p, List.mem_cons_of_mem _ hp, hbad, ?_, ?_⟩
        · simpa [build_quant_configs, hpl, if_neg hq] using herr
        · simpa [build_quant_configs, hpl, if_neg hq] using hnone

/-- Config-dict entries survive the second loop. -/
theorem build_quant_configs_mono (prof : QuantizerProfile)
    (platforms : List (String × TargetPlatform))
    (configs : List (String × OperationQuantizationConfig)) (l : List (String × Op))
    (n : String) (h : (dict_get configs n).isSome) :
    (dict_get (build_quant_configs prof platforms configs l).1 n).isSome := by
  induction l generalizing configs with
  | nil => exact h
  | cons hd tl ih =>
    obtain ⟨m, op⟩ := hd
    cases hpl : dict_get platforms m with
    | none => simpa [build_quant_configs, hpl] using h
    | some pl =>
      by_cases hq : TargetPlatform.is_quantized_platform pl = true
      · cases hmd : Op.meta_data op with
        | none => simpa [build_quant_configs, hpl, hq, if_pos rfl, hmd] using h
        | some md =>
          by_cases ht : Op.op_type op ∈ prof.quant_operation_types
          · by_cases hc : (dict_get configs m).isSome
            · simp [build_quant_configs, hpl, hq, if_pos rfl, hmd, if_pos ht,
                hc, if_true]
              exact ih _ h
            · simp [build_quant_configs, hpl, hq, if_pos rfl, hmd, if_pos ht,
                hc, if_false, Bool.false_eq_true]
              exact ih _ (dict_get_set_isSome _ _ _ _ h)
          · simp [build_quant_configs, hpl, hq, if_pos rfl, hmd, if_neg ht]
            exact ih _ h
      · simp [build_quant_configs, hpl, if_neg hq]
        exact ih _ h

/-- After a successful second loop, every operation with a quantized
dict platform and a quantable type has a config-dict entry. -/
theorem build_quant_configs_covers (prof : QuantizerProfile)
    (platforms : List (String × TargetPlatform))
    (configs : List (String × OperationQuantizationConfig)) (l : List (String × Op))
    (hok : (build_quant_configs prof platforms configs l).2 = none) :
    ∀ p ∈ l, ∀ pl, dict_get platforms p.1 = some pl →
      TargetPlatform.is_quantized_platform pl = true →
      Op.op_type p.2 ∈ prof.quant_operation_types →
      (dict_get (build_quant_configs prof platforms configs l).1 p.1).isSome := by
  induction l generalizing configs with
  | nil => intro p hp; cases hp
  | cons hd tl ih =>
    obtain ⟨m, op⟩ := hd
    intro p hp pl hpl hq ht
    cases hplm : dict_get platforms m with
    | none => rw [show (build_quant_configs prof platforms configs ((m, op) :: tl)).2 =
        some (.keyError m) by simp [build_quant_configs, hplm]] at hok; cases hok
    | some plm =>
      by_cases hqm : TargetPlatform.is_quantized_platform plm = true
      · cases hmd : Op.meta_data op with
        | none =>
          exfalso
          rw [show (build_quant_configs prof platforms configs ((m, op) :: tl)).2 =
            some (.metadataError m) by
              simp [build_quant_configs, hplm, hqm, hmd]] at hok
          cases hok
        | some md =>
          by_cases htm : Op.op_type op ∈ prof.quant_operation_types
          · by_cases hc : (dict_get configs m).isSome
            · have heq : build_quant_configs prof platforms configs ((m, op) :: tl) =
                  build_quant_configs prof platforms configs tl := by
                simp [build_quant_configs, hplm, hqm, if_pos rfl, hmd,
                  if_pos htm, hc, if_true]
              rw [heq] at hok ⊢
              rcases List.mem_cons.mp hp with heqp | htlp
              · obtain ⟨rfl, rfl⟩ : p.1 = m ∧ p.2 = op := by rw [heqp]; exact ⟨rfl, rfl⟩
                exact build_quant_configs_mono _ _ _ _ _ hc
              · exact ih _ hok p htlp pl hpl hq ht
            · have heq : build_quant_configs prof platforms configs ((m, op) :: tl) =
                  build_quant_configs prof platforms
                    (dict_set configs m (prof.init_quantize_config md (Op.op_type op))) tl := by
                simp [build_quant_configs, hplm, hqm, if_pos rfl, hmd,
                  if_pos htm, hc, if_false, Bool.false_eq_true]
              rw [heq] at hok ⊢
              rcases List.mem_cons.mp hp with heqp | htlp
              · obtain ⟨rfl, rfl⟩ : p.1 = m ∧ p.2 = op := by rw [heqp]; exact ⟨rfl, rfl⟩
                exact build_quant_configs_mono _ _ _ _ _ (by simp)
              · exact ih _ hok p htlp pl hpl hq ht
          · have heq : build_quant_configs prof platforms configs ((m, op) :: tl) =
                build_quant_configs prof platforms configs tl := by
              simp [build_quant_configs, hplm, hqm, if_pos rfl, hmd, if_neg htm]
            rw [heq] at hok ⊢
            rcases List.mem_cons.mp hp with heqp | htlp
            · obtain ⟨rfl, rfl⟩ : p.1 = m ∧ p.2 = op := by rw [heqp]; exact ⟨rfl, rfl⟩
              rw [hplm] at hpl; cases hpl; exact absurd ht htm
            · exact ih _ hok p htlp pl hpl hq ht
      · have heq : build_quant_configs prof platforms configs ((m, op) :: tl) =
            build_quant_configs prof platforms configs tl := by
          simp [build_quant_configs, hplm, if_neg hqm]
        rw [heq] at hok ⊢
        rcases List.mem_cons.mp hp with heqp | htlp
        · obtain ⟨rfl, rfl⟩ : p.1 = m ∧ p.2 = op := by rw [heqp]; exact ⟨rfl, rfl⟩
          rw [hplm] at hpl; cases hpl; exact absurd hq hqm
        · exact ih _ hok p htlp pl hpl hq ht

/-- If the conversion loop meets a `QuantableOperation` (and the dicts
cover every earlier operation), it stops with `alreadyQuantized` naming
such an operation. -/
theorem convert_loop_already_quantized (prof : QuantizerProfile)
    (platforms : List (String × TargetPlatform))
    (configs : List (String × OperationQuantizationConfig)) (l : List (String × Op))
    (hlook : ∀ p ∈ l, (dict_get platforms p.1).isSome)
    (hcfg : ∀ p ∈ l, Op.is_quantable p.2 = false → ∀ pl,
      dict_get platforms p.1 = some pl →
      TargetPlatform.is_quantized_platform pl = true → (dict_get configs p.1).isSome)
    (hex : ∃ p ∈ l, Op.is_quantable p.2 = true) :
    ∃ p ∈ l, Op.is_quantable p.2 = true ∧
      (convert_loop prof platforms configs l).2 = some (.alreadyQuantized p.1) := by
  induction l with
  | nil => obtain ⟨p, hp, _⟩ := hex; cases hp
  | cons hd tl ih =>
    obtain ⟨n, op⟩ := hd
    by_cases hqop : Op.is_quantable op = true
    · exact ⟨(n, op), List.mem_cons_self _ _, hqop, by
        simp [convert_loop, hqop, if_pos rfl]⟩
    · have hqop' : Op.is_quantable op = false := by
        cases h : Op.is_quantable op
        · rfl
        · exact absurd h hqop
      have hlook0 := hlook (n, op) (List.mem_cons_self _ _)
      cases hpl : dict_get platforms n with
      | none => rw [hpl] at hlook0; cases hlook0
      | some pl =>
        have hex' : ∃ p ∈ tl, Op.is_quantable p.2 = true := by
          obtain ⟨p, hp, hq⟩ := hex
          rcases List.mem_cons.mp hp with heqp | htlp
          · exfalso
            obtain ⟨rfl, rfl⟩ : p.1 = n ∧ p.2 = op := by rw [heqp]; exact ⟨rfl, rfl⟩
            rw [hqop'] at hq; cases hq
          · exact ⟨p, htlp, hq⟩
        have htail := ih (fun p hp => hlook p (List.mem_cons_of_mem _ hp))
          (fun p hp => hcfg p (List.mem_cons_of_mem _ hp)) hex'
        obtain ⟨p, hp, hq, herr⟩ := htail
        by_cases hqz : TargetPlatform.is_quantized_platform pl = true
        · have hcfg0 := hcfg (n, op) (List.mem_cons_self _ _) hqop' pl hpl hqz
          cases hcget : dict_get configs n with
          | none => rw [hcget] at hcfg0; cases hcfg0
          | some cfg =>
            refine ⟨p, List.mem_cons_of_mem _ hp, hq, ?_⟩
            simpa [convert_loop, hqop', Bool.false_eq_true, if_false, hpl,
              hqz, if_pos rfl, hcget] using herr
        · refine ⟨p, List.mem_cons_of_mem _ hp, hq, ?_⟩
          simpa [convert_loop, hqop', Bool.false_eq_true, if_false, hpl,
            if_neg hqz] using herr

/-- The conversion loop preserves names and platforms (each converted
operation receives its own dict platform, which by hypothesis equals
the platform already written onto it by the first loop). -/
theorem convert_loop_platforms (prof : QuantizerProfile)
    (platforms : List (String × TargetPlatform))
    (configs : List (String × OperationQuantizationConfig)) (l : List (String × Op))
    (h : ∀ p ∈ l, dict_get platforms p.1 = some (Op.platform p.2)) :
    List.Forall₂ (fun a b => a.1 = b.1 ∧ Op.platform b.2 = Op.platform a.2)
      l (convert_loop prof platforms configs l).1 := by
  induction l with
  | nil => exact List.Forall₂.nil
  | cons hd tl ih =>
    obtain ⟨n, op⟩ := hd
    have hrefl : List.Forall₂ (fun a b => a.1 = b.1 ∧ Op.platform b.2 = Op.platform a.2)
        ((n, op) :: tl) ((n, op) :: tl) :=
      List.forall₂_same.mpr (fun x _ => ⟨rfl, rfl⟩)
    by_cases hqop : Op.is_quantable op = true
    · simpa [convert_loop, hqop, if_pos rfl] using hrefl
    · have hqop' : Op.is_quantable op = false := by
        cases hb : Op.is_quantable op
        · rfl
        · exact absurd hb hqop
      have h0 := h (n, op) (List.mem_cons_self _ _)
      have htail := ih (fun p hp => h p (List.mem_cons_of_mem _ hp))
      cases hpl : dict_get platforms n with
      | none => simpa [convert_loop, hqop', Bool.false_eq_true, if_false, hpl]
          using hrefl
      | some pl =>
        have hpleq : pl = Op.platform op := by
          rw [hpl] at h0; exact (Option.some.injEq _ _ ▸ h0)
        by_cases hqz : TargetPlatform.is_quantized_platform pl = true
        · cases hcget : dict_get configs n with
          | none => simpa [convert_loop, hqop', Bool.false_eq_true, if_false,
              hpl, hqz, if_pos rfl, hcget] using hrefl
          | some cfg =>
            simp only [convert_loop, hqop', Bool.false_eq_true, if_false, hpl,
              hqz, if_true, hcget, List.forall₂_cons]
            exact ⟨⟨trivial, hpleq⟩, htail⟩
        · simp only [convert_loop, hqop', Bool.false_eq_true, if_false, hpl,
            hqz, List.forall₂_cons]
          exact ⟨⟨trivial, by simpa using hpleq⟩, htail⟩

/-- Composition of two `Forall₂` relations along a middle list. -/
theorem forall₂_compose {α β γ : Type} {R : α → β → Prop} {S : β → γ → Prop}
    {T : α → γ → Prop} (himp : ∀ a b c, R a b → S b c → T a c) :
    ∀ {l1 : List α} {l2 : List β} {l3 : List γ},
      List.Forall₂ R l1 l2 → List.Forall₂ S l2 l3 → List.Forall₂ T l1 l3 := by
  intro l1 l2 l3 h1
  induction h1 generalizing l3 with
  | nil => intro h2; cases h2; exact .nil
  | cons hr _ ih =>
    intro h2
    cases h2 with
    | cons hs hs' => exact .cons (himp _ _ _ hr hs) (ih hs')

/-- `Forall₂` between a list and its image under a map. -/
theorem forall₂_map_self {α β : Type} (f : α → β) (R : α → β → Prop)
    (h : ∀ a, R a (f a)) (l : List α) : List.Forall₂ R l (l.map f) := by
  induction l with
  | nil => exact .nil
  | cons hd tl ih => exact .cons (h hd) ih

/-- Whatever `quantize_operations` returns or raises, every operation of
the result graph carries the precedence-resolved platform of the
corresponding input operation (the first loop wrote it, and the third
loop only rewrites it to the equal dict value). -/
theorem quantize_operations_platforms (prof : QuantizerProfile) (g : Graph)
    (d : List (String × TargetPlatform))
    (cfgs : List (String × OperationQuantizationConfig))
    (hnd : (g.map Prod.fst).Nodup) :
    List.Forall₂ (fun a b => a.1 = b.1 ∧ Op.platform b.2 = resolve_platform prof a.2)
      g (quantize_operations prof g d cfgs).1 := by
  have hmapped : List.Forall₂
      (fun a b => a.1 = b.1 ∧ Op.platform b.2 = resolve_platform prof a.2)
      g (platform_assignment prof d g).2 := by
    rw [platform_assignment_snd]
    exact forall₂_map_self _ _ (fun a => ⟨rfl, by simp⟩) g
  have hlook1 : ∀ p ∈ (platform_assignment prof d g).2,
      dict_get (platform_assignment prof d g).1 p.1 = some (Op.platform p.2) := by
    intro p hp
    rw [platform_assignment_snd] at hp
    obtain ⟨a, ha, rfl⟩ := List.mem_map.mp hp
    simpa using platform_assignment_fst_mem prof d g a.1 a.2 hnd ha
  cases hbc : (build_quant_configs prof (platform_assignment prof d g).1 cfgs
      (platform_assignment prof d g).2).2 with
  | some e =>
    simpa only [quantize_operations, hbc] using hmapped
  | none =>
    have hconv := convert_loop_platforms prof (platform_assignment prof d g).1
      (build_quant_configs prof (platform_assignment prof d g).1 cfgs
        (platform_assignment prof d g).2).1 (platform_assignment prof d g).2 hlook1
    simp only [quantize_operations, hbc]
    exact forall₂_compose
      (fun a b c hab hbc' => ⟨hab.1.trans hbc'.1, hbc'.2.trans hab.2⟩)
      hmapped hconv

/-- C6: when some operation with a quantized resolved platform has no
traced metadata, `quantize_operations` (called, as in `quantize`, with
no caller-supplied dicts) raises the metadata `ValueError` identifying
such an operation, and at that moment no quantization config has been
built for it. -/
theorem C6_missing_metadata (prof : QuantizerProfile) (g : Graph)
    (hnd : (g.map Prod.fst).Nodup)
    (hex : ∃ p ∈ g, TargetPlatform.is_quantized_platform (resolve_platform prof p.2) = true ∧
      Op.meta_data p.2 = none) :
    ∃ p ∈ g, TargetPlatform.is_quantized_platform (resolve_platform prof p.2) = true ∧
      Op.meta_data p.2 = none ∧
      (quantize_operations prof g [] []).2 = some (.metadataError p.1) ∧
      dict_get (build_quant_configs prof (platform_assignment prof [] g).1 []
        (platform_assignment prof [] g).2).1 p.1 = none := by
  have hg1 := platform_assignment_snd prof [] g
  have hnd1 : ((platform_assignment prof [] g).2.map Prod.fst).Nodup := by
    simpa [hg1, List.map_map, Function.comp] using hnd
  have hlook1 : ∀ p ∈ (platform_assignment prof [] g).2,
      (dict_get (platform_assignment prof [] g).1 p.1).isSome := by
    intro p hp
    rw [hg1] at hp
    obtain ⟨a, ha, rfl⟩ := List.mem_map.mp hp
    simp [platform_assignment_fst_mem prof [] g a.1 a.2 hnd ha]
  have hcfg1 : ∀ p ∈ (platform_assignment prof [] g).2,
      (∃ pl, dict_get (platform_assignment prof [] g).1 p.1 = some pl ∧
        TargetPlatform.is_quantized_platform pl = true ∧ Op.meta_data p.2 = none) →
      dict_get ([] : List (String × OperationQuantizationConfig)) p.1 = none :=
    fun _ _ _ => rfl
  have hex1 : ∃ p ∈ (platform_assignment prof [] g).2,
      ∃ pl, dict_get (platform_assignment prof [] g).1 p.1 = some pl ∧
        TargetPlatform.is_quantized_platform pl = true ∧ Op.meta_data p.2 = none := by
    obtain ⟨p, hp, hq, hm⟩ := hex
    refine ⟨(p.1, Op.set_platform p.2 (resolve_platform prof p.2)), ?_,
      resolve_platform prof p.2, ?_, hq, ?_⟩
    · rw [hg1]
      exact List.mem_map.mpr ⟨p, hp, rfl⟩
    · exact platform_assignment_fst_mem prof [] g p.1 p.2 hnd hp
    · simpa using hm
  obtain ⟨q, hq1, ⟨pl, hpl, hplq, hqm⟩, herr, hnone⟩ :=
    build_quant_configs_metadata_error prof (platform_assignment prof [] g).1 []
      (platform_assignment prof [] g).2 hnd1 hlook1 hcfg1 hex1
  rw [hg1] at hq1
  obtain ⟨a, ha, rfl⟩ := List.mem_map.mp hq1
  have hpleq : pl = resolve_platform prof a.2 := by
    have := platform_assignment_fst_mem prof [] g a.1 a.2 hnd ha
    rw [hpl] at this
    exact Option.some.inj this
  refine ⟨a, ha, ?_, ?_, ?_, ?_⟩
  · rw [← hpleq]; exact hplq
  · simpa using hqm
  · simp only [quantize_operations]
    rw [herr]
  · exact hnone

/-- C3 (amended): on a graph already containing a `QuantableOperation`
(when the earlier phases raise no other error), `quantize_operations`
does raise the `TypeError` rejecting double quantization in its
conversion loop — but by then the platform-assignment loop has already
mutated the graph: every returned operation carries its
precedence-resolved platform, and operations preceding the offending
one may already have been converted. -/
theorem C3_double_quantize_raises (prof : QuantizerProfile) (g : Graph)
    (hnd : (g.map Prod.fst).Nodup)
    (hmeta : ∀ p ∈ g, TargetPlatform.is_quantized_platform (resolve_platform prof p.2) = true →
      (Op.meta_data p.2).isSome)
    (htype : ∀ p ∈ g, Op.is_quantable p.2 = false →
      TargetPlatform.is_quantized_platform (resolve_platform prof p.2) = true →
      Op.op_type p.2 ∈ prof.quant_operation_types)
    (hex : ∃ p ∈ g, Op.is_quantable p.2 = true) :
    (∃ p ∈ g, Op.is_quantable p.2 = true ∧
      (quantize_operations prof g [] []).2 = some (.alreadyQuantized p.1)) ∧
    List.Forall₂ (fun a b => a.1 = b.1 ∧ Op.platform b.2 = resolve_platform prof a.2)
      g (quantize_operations prof g [] []).1 := by
  refine ⟨?_, quantize_operations_platforms prof g [] [] hnd⟩
  have hg1 := platform_assignment_snd prof [] g
  have hlook1 : ∀ p ∈ (platform_assignment prof [] g).2,
      (dict_get (platform_assignment prof [] g).1 p.1).isSome := by
    intro p hp
    rw [hg1] at hp
    obtain ⟨a, ha, rfl⟩ := List.mem_map.mp hp
    simp [platform_assignment_fst_mem prof [] g a.1 a.2 hnd ha]
  have hmeta1 : ∀ p ∈ (platform_assignment prof [] g).2, ∀ pl,
      dict_get (platform_assignment prof [] g).1 p.1 = some pl →
      TargetPlatform.is_quantized_platform pl = true → (Op.meta_data p.2).isSome := by
    intro p hp pl hpl hq
    rw [hg1] at hp
    obtain ⟨a, ha, rfl⟩ := List.mem_map.mp hp
    have hlook := platform_assignment_fst_mem prof [] g a.1 a.2 hnd ha
    rw [hpl] at hlook
    obtain rfl : pl = resolve_platform prof a.2 := Option.some.inj hlook
    simpa using hmeta a ha hq
  have hok : (build_quant_configs prof (platform_assignment prof [] g).1 []
      (platform_assignment prof [] g).2).2 = none :=
    build_quant_configs_no_error prof _ _ _ hlook1 hmeta1
  have hcfg1 : ∀ p ∈ (platform_assignment prof [] g).2, Op.is_quantable p.2 = false →
      ∀ pl, dict_get (platform_assignment prof [] g).1 p.1 = some pl →
      TargetPlatform.is_quantized_platform pl = true →
      (dict_get (build_quant_configs prof (platform_assignment prof [] g).1 []
        (platform_assignment prof [] g).2).1 p.1).isSome := by
    intro p hp hnq pl hpl hq
    have hp' := hp
    rw [hg1] at hp'
    obtain ⟨a, ha, rfl⟩ := List.mem_map.mp hp'
    have hlook := platform_assignment_fst_mem prof [] g a.1 a.2 hnd ha
    rw [hpl] at hlook
    obtain rfl : pl = resolve_platform prof a.2 := Option.some.inj hlook
    have hty : Op.op_type a.2 ∈ prof.quant_operation_types :=
      htype a ha (by simpa using hnq) hq
    exact build_quant_configs_covers prof _ _ _ hok _ hp _ hpl hq (by simpa using hty)
  have hex1 : ∃ p ∈ (platform_assignment prof [] g).2, Op.is_quantable p.2 = true := by
    obtain ⟨p, hp, hq⟩ := hex
    exact ⟨(p.1, Op.set_platform p.2 (resolve_platform prof p.2)),
      by rw [hg1]; exact List.mem_map.mpr ⟨p, hp, rfl⟩, by simpa using hq⟩
  obtain ⟨q, hq1, hqq, herr⟩ :=
    convert_loop_already_quantized prof (platform_assignment prof [] g).1
      (build_quant_configs prof (platform_assignment prof [] g).1 []
        (platform_assignment prof [] g).2).1
      (platform_assignment prof [] g).2 hlook1 hcfg1 hex1
  rw [hg1] at hq1
  obtain ⟨a, ha, rfl⟩ := List.mem_map.mp hq1
  refine ⟨a, ha, by simpa using hqq, ?_⟩
  simp only [quantize_operations]
  rw [hok]
  exact herr

/-- C3 counterexample: on the concrete graph `gOld` (a plain Conv
operation followed by an already-quantized operation `"old"`), the
`TypeError` is raised — but not before further mutation: by the time it
is raised, `"conv1"` has already been converted to a
`QuantableOperation` and its platform has been rewritten from
`UNSPECIFIED` to `PPL_CUDA_INT8`, refuting "this failure occurs before
any further mutation of the graph is performed". -/
theorem C3_counterexample :
    (quantize_operations prof0 gOld [] []).2 = some (.alreadyQuantized "old") ∧
      (dict_get (quantize_operations prof0 gOld [] []).1 "conv1").map Op.is_quantable =
        some true ∧
      (dict_get gOld "conv1").map Op.is_quantable = some false ∧
      (dict_get (quantize_operations prof0 gOld [] []).1 "conv1").map Op.platform =
        some TargetPlatform.PPL_CUDA_INT8 ∧
      (dict_get gOld "conv1").map Op.platform = some TargetPlatform.UNSPECIFIED :=
  ⟨by decide, by decide, by decide, by decide, by decide⟩

/-- Witness for C3 (amended) at the concrete graph `gOld`. -/
theorem C3_witness :
    (gOld.map Prod.fst).Nodup ∧
      (∀ p ∈ gOld, TargetPlatform.is_quantized_platform (resolve_platform prof0 p.2) = true →
        (Op.meta_data p.2).isSome) ∧
      (∀ p ∈ gOld, Op.is_quantable p.2 = false →
        TargetPlatform.is_quantized_platform (resolve_platform prof0 p.2) = true →
        Op.op_type p.2 ∈ prof0.quant_operation_types) ∧
      (∃ p ∈ gOld, Op.is_quantable p.2 = true) ∧
      ((∃ p ∈ gOld, Op.is_quantable p.2 = true ∧
        (quantize_operations prof0 gOld [] []).2 = some (.alreadyQuantized p.1)) ∧
      List.Forall₂ (fun a b => a.1 = b.1 ∧ Op.platform b.2 = resolve_platform prof0 a.2)
        gOld (quantize_operations prof0 gOld [] []).1) :=
  ⟨by decide, by decide, by decide, ⟨("old", opOld), by decide, by decide⟩,
    C3_double_quantize_raises prof0 gOld (by decide) (by decide) (by decide)
      ⟨("old", opOld), by decide, by decide⟩⟩

/-- Witness for C6 at the concrete graph `gRaw` (one Conv operation
with untraced metadata). -/
theorem C6_witness :
    (gRaw.map Prod.fst).Nodup ∧
      (∃ p ∈ gRaw, TargetPlatform.is_quantized_platform (resolve_platform prof0 p.2) = true ∧
        Op.meta_data p.2 = none) ∧
      (∃ p ∈ gRaw, TargetPlatform.is_quantized_platform (resolve_platform prof0 p.2) = true ∧
        Op.meta_data p.2 = none ∧
        (quantize_operations prof0 gRaw [] []).2 = some (.metadataError p.1) ∧
        dict_get (build_quant_configs prof0 (platform_assignment prof0 [] gRaw).1 []
          (platform_assignment prof0 [] gRaw).2).1 p.1 = none) :=
  ⟨by decide, ⟨("conv1", opNoMeta), by decide, by decide, by decide⟩,
    C6_missing_metadata prof0 gRaw (by decide)
      ⟨("conv1", opNoMeta), by decide, by decide, by decide⟩⟩

/-- C8 (amended): calling `quantize` with a non-`QuantizationSetting`
settings object does fail with the settings-shape assertion — but only
after `quantize_operations` has already run: the returned graph is
exactly the graph as mutated by `quantize_operations` (platforms
assigned and quantizable operations converted), so partial work has
been performed. -/
theorem C8_invalid_setting_after_quantization (prof : QuantizerProfile)
    (tracing_operation_meta : List (String × Op) → List (String × Op))
    (run_pipeline : List Pass → List (String × Op) → List (String × Op))
    (qf : Nat) (g : Graph) (ty : String)
    (hqo : (quantize_operations prof (tracing_operation_meta g) [] []).2 = none) :
    quantize prof tracing_operation_meta run_pipeline qf g (.invalid ty) =
      ((quantize_operations prof (tracing_operation_meta g) [] []).1,
       some (.pipelineBuildError (.assertionError ty))) := by
  simp only [quantize]
  cases hq0 : quantize_operations prof (tracing_operation_meta g) [] [] with
  | mk g2 err =>
    rw [hq0] at hqo
    simp only at hqo
    subst hqo
    simp [create_optim_pipeline_from_setting]

/-- C8 counterexample: on the concrete one-operation graph `gRaw` with
a wrong-shaped settings object, `quantize` fails with the assertion
error, yet partial work was performed: `"conv1"` has been converted to
a `QuantableOperation` and its platform changed — refuting "no partial
work is performed: the graph is left unmutated". -/
theorem C8_counterexample :
    (quantize prof0 trace0 run_id 7 gRaw (.invalid "dict")).2 =
        some (.pipelineBuildError (.assertionError "dict")) ∧
      (dict_get (quantize prof0 trace0 run_id 7 gRaw (.invalid "dict")).1 "conv1").map
          Op.is_quantable = some true ∧
      (dict_get gRaw "conv1").map Op.is_quantable = some false ∧
      (dict_get (quantize prof0 trace0 run_id 7 gRaw (.invalid "dict")).1 "conv1").map
          Op.platform = some TargetPlatform.PPL_CUDA_INT8 ∧
      (dict_get gRaw "conv1").map Op.platform = some TargetPlatform.UNSPECIFIED :=
  ⟨by decide, by decide, by decide, by decide, by decide⟩

/-- Witness for C8 (amended) at the concrete inputs `prof0`, `trace0`,
`run_id`, `gRaw`. -/
theorem C8_witness :
    (quantize_operations prof0 (trace0 gRaw) [] []).2 = none ∧
      quantize prof0 trace0 run_id 7 gRaw (.invalid "dict") =
        ((quantize_operations prof0 (trace0 gRaw) [] []).1,
         some (.pipelineBuildError (.assertionError "dict"))) :=
  ⟨by decide,
    C8_invalid_setting_after_quantization prof0 trace0 run_id 7 gRaw "dict" (by decide)⟩

/-- A list-shape lemma for C1: the four marked passes form a sublist of
the pipeline skeleton, whatever the toggled segments `A`-`H` contain. -/
theorem sublist_skeleton {α : Type} (A B C D E G H : List α) (pq pb adv rc pb2 : α) :
    List.Sublist [pb, adv, rc, pb2]
      (A ++ (B ++ (C ++ (pq :: pb :: (D ++ (E ++ (G ++ (adv :: rc :: pb2 :: H)))))))) := by
  have h0 : List.Sublist [adv, rc, pb2] (adv :: rc :: pb2 :: H) :=
    (List.nil_sublist H).cons₂ pb2 |>.cons₂ rc |>.cons₂ adv
  have h1 : List.Sublist [adv, rc, pb2] (D ++ (E ++ (G ++ (adv :: rc :: pb2 :: H)))) :=
    ((h0.trans (List.sublist_append_right G _)).trans
      (List.sublist_append_right E _)).trans (List.sublist_append_right D _)
  have h2 : List.Sublist [pb, adv, rc, pb2]
      (pq :: pb :: (D ++ (E ++ (G ++ (adv :: rc :: pb2 :: H))))) :=
    (h1.cons₂ pb).cons pq
  exact ((h2.trans (List.sublist_append_right C _)).trans
    (List.sublist_append_right B _)).trans (List.sublist_append_right A _)

/-- C1: whenever `quantize_parameter`, its `baking_parameter` sub-flag
and `advanced_optimization` are all enabled and the builder returns a
pass list, that list contains a `ParameterBakingPass`, then later an
`AdvancedQuantOptimization` pass, then a `RuntimeCalibrationPass` in
override mode, then a second `ParameterBakingPass`, in that relative
order. -/
theorem C1_pipeline_order (tp : TargetPlatform) (qf : Nat)
    (s : QuantizationSetting) (ps : List Pass)
    (hqp : s.quantize_parameter = true)
    (hbake : s.quantize_parameter_setting.baking_parameter = true)
    (hadv : s.advanced_optimization = true)
    (hok : create_optim_pipeline_from_setting tp qf (.valid s) = .ok ps) :
    [Pass.ParameterBakingPass qf,
     Pass.AdvancedQuantOptimization s.advanced_optimization_setting.collecting_device
       s.advanced_optimization_setting.offset_limit s.advanced_optimization_setting.lr
       s.advanced_optimization_setting.interested_types s.advanced_optimization_setting.step
       s.advanced_optimization_setting.correct_bias s.advanced_optimization_setting.check
       s.advanced_optimization_setting.max_trys,
     Pass.RuntimeCalibrationPass s.quantize_activation_setting.calib_algorithm true,
     Pass.ParameterBakingPass qf].Sublist ps := by
  cases hact : s.quantize_activation with
  | false => simp [create_optim_pipeline_from_setting, hadv, hact] at hok
  | true =>
    simp [create_optim_pipeline_from_setting, hqp, hbake, hadv, hact] at hok
    rw [← hok]
    exact sublist_skeleton _ _ _ _ _ _ _ _ _ _ _ _

/-- Witness for C1 at the concrete settings `s_c1`. -/
theorem C1_witness :
    s_c1.quantize_parameter = true ∧
      s_c1.quantize_parameter_setting.baking_parameter = true ∧
      s_c1.advanced_optimization = true ∧
      create_optim_pipeline_from_setting TargetPlatform.PPL_CUDA_INT8 7 (.valid s_c1) =
        .ok [Pass.ParameterQuantizePass "minmax",
          Pass.ParameterBakingPass 7,
          Pass.RuntimeCalibrationPass "kl" false,
          Pass.AdvancedQuantOptimization "cpu" 10 1 ["Conv"] 2 true false 8,
          Pass.RuntimeCalibrationPass "kl" true,
          Pass.ParameterBakingPass 7] ∧
      [Pass.ParameterBakingPass 7,
        Pass.AdvancedQuantOptimization "cpu" 10 1 ["Conv"] 2 true false 8,
        Pass.RuntimeCalibrationPass "kl" true,
        Pass.ParameterBakingPass 7].Sublist
        [Pass.ParameterQuantizePass "minmax",
          Pass.ParameterBakingPass 7,
          Pass.RuntimeCalibrationPass "kl" false,
          Pass.AdvancedQuantOptimization "cpu" 10 1 ["Conv"] 2 true false 8,
          Pass.RuntimeCalibrationPass "kl" true,
          Pass.ParameterBakingPass 7] :=
  ⟨rfl, rfl, rfl, rfl,
    C1_pipeline_order TargetPlatform.PPL_CUDA_INT8 7 s_c1
      [Pass.ParameterQuantizePass "minmax",
        Pass.ParameterBakingPass 7,
        Pass.RuntimeCalibrationPass "kl" false,
        Pass.AdvancedQuantOptimization "cpu" 10 1 ["Conv"] 2 true false 8,
        Pass.RuntimeCalibrationPass "kl" true,
        Pass.ParameterBakingPass 7] rfl rfl rfl rfl⟩

/-- Witness for C10 at the concrete settings `s_adv_noact`. -/
theorem C10_witness :
    s_adv_noact.advanced_optimization = true ∧
      s_adv_noact.quantize_activation = false ∧
      create_optim_pipeline_from_setting TargetPlatform.PPL_CUDA_INT8 7
          (.valid s_adv_noact) =
        .error (.nameError "act_setting") :=
  ⟨rfl, rfl,
    C10_nameerror_act_setting TargetPlatform.PPL_CUDA_INT8 7 s_adv_noact rfl rfl⟩

end PPQ
